import Mathlib

/-!
Verification development for the automatic recruitment system
(src/app.py, src/utils.py, src/pages/ai_interviewer.py).

The Python code is shallowly embedded: pure fragments become Lean
functions, the Streamlit session state becomes an explicit record that
each script run (cycle) transforms, and calls to external services
(PDF library, chat-completion client, speech recognizer, SMTP transport)
become explicit outcome values or function parameters, so that the
control flow of the embedded code is exactly the control flow of the
source.
-/

namespace ATS

/-! ### CV scoring pipeline (src/utils.py, src/app.py) -/

/-- Outcome of the PDF library on an uploaded file: either the extracted
text of all pages, or the exception message it raised. -/
inductive ParseOutcome where
  | ok : String → ParseOutcome
  | exn : String → ParseOutcome
deriving DecidableEq

/-- Embeds parse_pdf (src/utils.py lines 8-17): returns the extracted
text, or the string "Error parsing PDF: " followed by the exception
message when the library raised. -/
def parse_pdf : ParseOutcome → String
  | ParseOutcome.ok t => t
  | ParseOutcome.exn e => "Error parsing PDF: " ++ e

/-- The Python substring test used at src/app.py line 38,
written "Error" in resume_text. -/
def containsErr (s : String) : Bool :=
  decide ("Error".toList <:+: s.toList)

/-- The structured fields of a successful scoring response
(the JSON object documented in get_cv_score, src/utils.py). -/
structure ScoreFields where
  name : String
  email : String
  score : Int
  domain : String
  comment : String
deriving DecidableEq

/-- Outcome of get_cv_score (src/utils.py lines 20-83): the parsed JSON
fields on success, or the stringified exception of a failed call. -/
inductive ScoreOutcome where
  | ok : ScoreFields → ScoreOutcome
  | err : String → ScoreOutcome
deriving DecidableEq

/-- The constant fields of the error dictionary built in the except
branch of get_cv_score (src/utils.py lines 75-83). -/
def errorScoreFields : ScoreFields :=
  ⟨"Error", "N/A", 0, "N/A", "Failed to process CV."⟩

/-- Embeds os.path.splitext applied at src/app.py line 46: the root part
of the filename, with the extension after the last dot stripped, unless
every character before that dot is itself a dot (then the name is kept
whole, as genericpath does for names such as ".bashrc"). -/
def splitextRoot (p : String) : String :=
  let cs := p.toList
  let rdist := cs.reverse.indexOf '.'
  if rdist = cs.length then p
  else
    let i := cs.length - 1 - rdist
    if (cs.take i).any (fun c => c ≠ '.') then String.mk (cs.take i) else p

/-- Result dictionary returned by process_single_cv (src/app.py lines
35-50): the extraction-error dictionary, the scoring-error dictionary
(which keeps the fallback fields of get_cv_score and gains a filename
key), or the success dictionary with the derived id. -/
inductive CVResult where
  | extractionError : String → String → CVResult
  | scoringError : String → String → ScoreFields → CVResult
  | success : String → ScoreFields → CVResult
deriving DecidableEq

/-- Embeds process_single_cv (src/app.py lines 35-50). The scoring client
is a parameter so that independence from it expresses that no client
call is made on the extraction-failure path. -/
def process_single_cv (parsed : ParseOutcome) (scorer : String → ScoreOutcome)
    (filename : String) : CVResult :=
  let resume_text := parse_pdf parsed
  if containsErr resume_text then
    CVResult.extractionError resume_text filename
  else
    match scorer resume_text with
    | ScoreOutcome.ok fields => CVResult.success (splitextRoot filename) fields
    | ScoreOutcome.err e => CVResult.scoringError e filename errorScoreFields

/-- Whether a worker result is the extraction-error dictionary. -/
def isExtractionError : CVResult → Bool
  | CVResult.extractionError _ _ => true
  | _ => false

/-- Whether a worker result is the success dictionary (no "error" key). -/
def isSuccess : CVResult → Bool
  | CVResult.success _ _ => true
  | _ => false

/-- One row of the DataFrame built at src/app.py line 107: a success
dictionary with its derived id. -/
structure ResultRow where
  id : String
  name : String
  email : String
  score : Int
  domain : String
  comment : String
deriving DecidableEq

/-- The success row a worker result contributes, if any. -/
def rowOfResult : CVResult → Option ResultRow
  | CVResult.success i f => some ⟨i, f.name, f.email, f.score, f.domain, f.comment⟩
  | _ => none

/-- Embeds the collection loop of main (src/app.py lines 85-102): each
completed future appends its dictionary to results only when it carries
no "error" key; failed dictionaries are shown as a warning and not
appended. The list argument is the completion order of the futures. -/
def collectResults (scorer : String → ScoreOutcome)
    (files : List (String × ParseOutcome)) : List ResultRow :=
  files.filterMap (fun fp => rowOfResult (process_single_cv fp.2 scorer fp.1))

/-! ### Shortlist aggregation (src/app.py lines 106-112) -/

/-- The comparison pandas sorts the score column by. -/
def scoreLe (a b : ResultRow) : Prop := a.score ≤ b.score

instance : DecidableRel scoreLe := fun a b => inferInstanceAs (Decidable (a.score ≤ b.score))

instance : IsTotal ResultRow scoreLe := ⟨fun a b => Int.le_total a.score b.score⟩

instance : IsTrans ResultRow scoreLe := ⟨fun _ _ _ h₁ h₂ => le_trans h₁ h₂⟩

/-- Embeds DataFrame.sort_values(by score, ascending False): pandas
nargsort argsorts the column ascending and reverses the indexer, so the
frame is put in ascending order by a sort that is stable on small inputs
(numpy insertion sort below its cutoff) and then reversed wholesale. -/
def pandasSortValuesDesc (l : List ResultRow) : List ResultRow :=
  (List.insertionSort scoreLe l).reverse

/-- Embeds the shortlist construction of main (src/app.py lines 108-110):
keep the rows with score at least 60, then sort by score descending. -/
def shortlistOf (results : List ResultRow) : List ResultRow :=
  pandasSortValuesDesc (results.filter (fun r => 60 ≤ r.score))

/-- The full path from uploaded files to the shortlisted frame. -/
def shortlistOfFiles (scorer : String → ScoreOutcome)
    (files : List (String × ParseOutcome)) : List ResultRow :=
  shortlistOf (collectResults scorer files)

/-! ### Bulk mail (src/app.py lines 162-233) -/

/-- One outbound message as assembled in send_bulk_email. -/
structure MailMsg where
  recipient : String
  subject : String
  body : String
deriving DecidableEq

/-- Accumulator pass of uniqueFirst: keep each value not yet seen. -/
def uniqueFirstAux (seen : List String) : List String → List String
  | [] => []
  | a :: l => if a ∈ seen then uniqueFirstAux seen l
              else a :: uniqueFirstAux (a :: seen) l

/-- Embeds pandas Series.unique as used on the email column: keep the
first occurrence of each value, in order. (dropna on that column is the
identity here: every collected row carries a string email, "N/A" when
the model could not extract one, never a missing value.) -/
def uniqueFirst (l : List String) : List String := uniqueFirstAux [] l

/-- The constant subject line built at src/app.py line 216. -/
def bulkSubject (jobTitle : String) : String :=
  "Invitation: AI Interview for " ++ jobTitle

/-- Embeds the mail-form section (src/app.py lines 207-231): the email
column is dropna-ed and de-duplicated, the name column is not; one body
is generated per name; subjects are replicated to the email count; and
Python zip truncates the triple to the shortest list. The result is the
message list handed to send_bulk_email. gen stands for the
generate_personalized_email client call, applied to the candidate name. -/
def handedMessages (gen : String → String) (jobTitle : String)
    (shortlisted : List ResultRow) : List MailMsg :=
  let emails := uniqueFirst (shortlisted.map (fun r => r.email))
  let names := shortlisted.map (fun r => r.name)
  let subjects := List.replicate emails.length (bulkSubject jobTitle)
  let bodies := names.map gen
  (emails.zip (subjects.zip bodies)).map (fun t => ⟨t.1, t.2.1, t.2.2⟩)

/-- Embeds the send loop of send_bulk_email (src/app.py lines 183-194):
messages are sent one by one over a single SMTP connection; an exception
from the transport aborts the remaining sends. The value is the list of
messages actually delivered. -/
def send_bulk_email (transport : MailMsg → Bool) : List MailMsg → List MailMsg
  | [] => []
  | m :: ms => if transport m then m :: send_bulk_email transport ms else []

/-! ### Interview session state machine (src/pages/ai_interviewer.py) -/

/-- Message roles of the conversation transcript. -/
inductive Role where
  | system : Role
  | assistant : Role
  | user : Role
deriving DecidableEq

/-- One transcript turn. -/
structure Turn where
  role : Role
  content : String
deriving DecidableEq

/-- The page_state values of the session (SETUP, INTERVIEW, REPORT). -/
inductive PageState where
  | SETUP : PageState
  | INTERVIEW : PageState
  | REPORT : PageState
deriving DecidableEq

/-- The structured final report (keys strengths, weaknesses,
interview_score, status per the report prompt). -/
structure FinalReportJson where
  strengths : String
  weaknesses : String
  interview_score : Int
  status : String
deriving DecidableEq

/-- The value stored under final_report: the parsed JSON object, or the
error dictionary holding the raw unparsable response text. -/
inductive ReportValue where
  | ok : FinalReportJson → ReportValue
  | error : String → ReportValue
deriving DecidableEq

/-- The Streamlit session state of the interviewer page. Wall-clock
times are modelled as integer seconds (the float clock of time.time
only ever feeds the one comparison against 480). A missing session key
is modelled as none. -/
structure Session where
  page_state : PageState
  candidate_name : String
  messages : List Turn
  interview_start_time : Int
  last_spoken : Option String
  final_report : Option ReportValue
deriving DecidableEq

/-- The fresh session produced by deleting every session key and
re-running the script (Start Over / Start New Interview): page_state is
re-initialized to SETUP and nothing else is set yet. -/
def freshSetup : Session :=
  ⟨PageState.SETUP, "Candidate", [], 0, none, none⟩

/-- Content of the latest assistant message, as computed at
src/pages/ai_interviewer.py lines 307-311. -/
def latestAssistant (msgs : List Turn) : Option String :=
  ((msgs.filter (fun m => m.role = Role.assistant)).getLast?).map (fun m => m.content)

/-- The per-run inputs of one INTERVIEW script cycle: the wall clock,
whether the Start Over button fired, the recognizer outcome (none for
no-match or canceled), and whether the End Interview button fired. -/
structure CycleInput where
  now : Int
  startOver : Bool
  recognized : Option String
  endButton : Bool
deriving DecidableEq

/-- Embeds one run of the INTERVIEW view (src/pages/ai_interviewer.py
lines 246-361), in script order: the Start Over button deletes the
session; the elapsed-time check moves to REPORT when more than 480
seconds have passed; otherwise, when an assistant message exists, the
latest one is synthesized unless it equals last_spoken, the recognizer
is invoked, a recognized utterance appends a user turn and one
chat-completion call appends the next assistant turn before an immediate
rerun, and an empty recognition falls through with a warning to the End
Interview button. The second component counts the chat-completion calls
made during the cycle. -/
def interviewCycle (aiRespond : List Turn → String) (s : Session)
    (inp : CycleInput) : Session × Nat :=
  if inp.startOver then (freshSetup, 0)
  else if 480 < inp.now - s.interview_start_time then
    ({ s with page_state := PageState.REPORT }, 0)
  else
    match latestAssistant s.messages with
    | none =>
      if inp.endButton then ({ s with page_state := PageState.REPORT }, 0)
      else (s, 0)
    | some latest =>
      let s1 := if s.last_spoken ≠ some latest
                then { s with last_spoken := some latest } else s
      match inp.recognized with
      | some text =>
        let msgs1 := s1.messages ++ [⟨Role.user, text⟩]
        let msgs2 := msgs1 ++ [⟨Role.assistant, aiRespond msgs1⟩]
        ({ s1 with messages := msgs2 }, 1)
      | none =>
        if inp.endButton then ({ s1 with page_state := PageState.REPORT }, 0)
        else (s1, 0)

/-- Display name of a role, as interpolated into the transcript string. -/
def roleName : Role → String
  | Role.system => "system"
  | Role.assistant => "assistant"
  | Role.user => "user"

/-- The conversation_transcript string built in the REPORT view
(src/pages/ai_interviewer.py lines 369-375): non-system turns joined as
role: content lines. -/
def transcriptString (msgs : List Turn) : String :=
  String.intercalate "\n"
    ((msgs.filter (fun m => m.role ≠ Role.system)).map
      (fun m => roleName m.role ++ ": " ++ m.content))

/-- The report prompt handed to the chat model (abridged to its two
inputs: the candidate name and the transcript string it embeds). -/
def reportPrompt (name transcript : String) : String :=
  "You are a senior HR Analyst. Based on the following interview transcript with "
    ++ name ++ ", provide a detailed evaluation.\n---\n" ++ transcript ++ "\n---"

/-- Embeds one run of the REPORT view (src/pages/ai_interviewer.py lines
364-406): when final_report is not yet a session key, one structured
chat-completion call is made on the report prompt and its response is
JSON-parsed, a parse failure storing the raw text as the error value;
otherwise the cached value is reused. Returns the updated session, the
report value displayed, and the number of chat-completion calls made.
reportRespond stands for the client call, jsonParse for json.loads
together with the shape check. -/
def reportView (reportRespond : String → String)
    (jsonParse : String → Option FinalReportJson) (s : Session) :
    Session × ReportValue × Nat :=
  match s.final_report with
  | some r => (s, r, 0)
  | none =>
    let raw := reportRespond (reportPrompt s.candidate_name (transcriptString s.messages))
    let v := match jsonParse raw with
             | some j => ReportValue.ok j
             | none => ReportValue.error raw
    ({ s with final_report := some v }, v, 1)

/-- What the REPORT view prints for the stored value: the error branch
shows the raw text verbatim (st.text of the error key); the success
branch renders the evaluation. -/
def displayedText : ReportValue → String
  | ReportValue.error e => e
  | ReportValue.ok j =>
      "Score: " ++ toString j.interview_score ++ "/100\nDecision: " ++ j.status
        ++ "\nStrengths\n" ++ j.strengths ++ "\nWeaknesses\n" ++ j.weaknesses

/-! ### Concrete inputs used by witnesses and counterexamples -/

/-- Fields a successful scoring call returns in the samples below. -/
def okFields : ScoreFields :=
  ⟨"Alice", "alice@example.com", 80, "Information Technology", "Strong candidate"⟩

/-- A scoring client whose call always succeeds with okFields. -/
def okScorer : String → ScoreOutcome := fun _ => ScoreOutcome.ok okFields

/-- A scoring client whose call always raises. -/
def errScorer : String → ScoreOutcome := fun _ => ScoreOutcome.err "API failure"

/-- One uploaded file on which the PDF library raises. -/
def badFiles : List (String × ParseOutcome) :=
  [("bad.pdf", ParseOutcome.exn "cannot open broken file")]

/-- One uploaded file that parses cleanly. -/
def sampleFiles : List (String × ParseOutcome) :=
  [("cv.pdf", ParseOutcome.ok "nine years of platform engineering")]

/-- The collected row the sample file produces. -/
def sampleRow : ResultRow :=
  ⟨"cv", "Alice", "alice@example.com", 80, "Information Technology",
   "Strong candidate"⟩

/-- A resume body that parses cleanly but mentions the word Error. -/
def resumeWithError : String :=
  "Led the team handling Error budgets and monitoring"

/-- Two distinct collected rows with equal score 60. -/
def rowTieA : ResultRow := ⟨"a", "Ann", "ann@example.com", 60, "Finance/Accounting", "fit"⟩

/-- Second of the two tied rows. -/
def rowTieB : ResultRow := ⟨"b", "Ben", "ben@example.com", 60, "Finance/Accounting", "fit"⟩

/-- The personalized-body generator used in the mail samples. -/
def bodyGen : String → String := fun n => "Dear " ++ n

/-- Shortlisted rows with distinct email addresses. -/
def mailRowA : ResultRow := ⟨"ra", "Alice", "alice@example.com", 80, "Information Technology", "good"⟩

/-- Second shortlisted row with a distinct email address. -/
def mailRowB : ResultRow := ⟨"rb", "Bob", "bob@example.com", 70, "Information Technology", "fine"⟩

/-- Shortlisted rows sharing one email address. -/
def dupRowA : ResultRow := ⟨"ra", "Alice", "hr@example.com", 80, "Information Technology", "good"⟩

/-- Second shortlisted row with the same email address as dupRowA. -/
def dupRowB : ResultRow := ⟨"rb", "Bob", "hr@example.com", 70, "Information Technology", "fine"⟩

/-- A chat model that always asks the same follow-up. -/
def constAI : List Turn → String := fun _ => "Could you tell me more?"

/-- An INTERVIEW session whose latest assistant turn carries a closing
phrase. -/
def closingSession : Session :=
  ⟨PageState.INTERVIEW, "Candidate",
   [⟨Role.system, "interview instructions"⟩,
    ⟨Role.assistant,
     "Thank you for your time. This concludes our interview. Goodbye."⟩],
   0, none, none⟩

/-- A cycle input past the 480-second ceiling, no buttons, no utterance. -/
def inpReport : CycleInput := ⟨500, false, none, false⟩

/-- A cycle input at 60 seconds, no buttons, and a recognizer no-match. -/
def inpQuiet : CycleInput := ⟨60, false, none, false⟩

/-- A session that has just entered REPORT, report not yet generated. -/
def reportSession : Session :=
  ⟨PageState.REPORT, "Candidate",
   [⟨Role.system, "interview instructions"⟩,
    ⟨Role.assistant, "Tell me about your experience."⟩,
    ⟨Role.user, "I build data pipelines."⟩],
   0, none, none⟩

/-- A report client whose response is plain text, not JSON. -/
def constRaw : String → String := fun _ => "service unavailable: plain text reply"

/-- A JSON parse that fails on every input. -/
def noParse : String → Option FinalReportJson := fun _ => none

/-! ### Helper lemmas -/

/-- The string built by the except branch of parse_pdf always contains
the substring Error, so the caller classifies it as a failed extraction. -/
theorem containsErr_parse_exn (e : String) :
    containsErr ("Error parsing PDF: " ++ e) = true := by
  have h : "Error".toList <:+: ("Error parsing PDF: " ++ e).toList := by
    refine ⟨[], " parsing PDF: ".toList ++ e.toList, ?_⟩
    have h1 : "Error".toList ++ " parsing PDF: ".toList
        = "Error parsing PDF: ".toList := by decide
    simp only [List.nil_append, ← List.append_assoc, h1]
    simp [String.toList, String.data_append]
  simpa [containsErr] using h

/-- Tie classes of the comparison key survive a stable orderedInsert:
an inserted row of the keyed score lands at the front of its class. -/
theorem filter_orderedInsert_score_eq (s : Int) (r : ResultRow) (hr : r.score = s)
    (l : List ResultRow) :
    (List.orderedInsert scoreLe r l).filter (fun x => x.score = s)
      = r :: l.filter (fun x => x.score = s) := by
  induction l with
  | nil => simp [List.orderedInsert, hr]
  | cons b l ih =>
    by_cases h : scoreLe r b
    · simp [List.orderedInsert, h, hr]
    · have hb : ¬ (b.score = s) := by
        intro hbs
        exact h (le_of_eq (hr.trans hbs.symm))
      simp [List.orderedInsert, h, hb, ih]

/-- Inserting a row of a different score leaves a tie class unchanged. -/
theorem filter_orderedInsert_score_ne (s : Int) (r : ResultRow) (hr : ¬ r.score = s)
    (l : List ResultRow) :
    (List.orderedInsert scoreLe r l).filter (fun x => x.score = s)
      = l.filter (fun x => x.score = s) := by
  induction l with
  | nil => simp [List.orderedInsert, hr]
  | cons b l ih =>
    by_cases h : scoreLe r b
    · simp [List.orderedInsert, h, hr]
    · simp [List.orderedInsert, h, List.filter_cons, ih]

/-- The ascending insertion sort is stable: each tie class of the score
key comes out in its input order. -/
theorem filter_insertionSort_score (s : Int) (l : List ResultRow) :
    (List.insertionSort scoreLe l).filter (fun x => x.score = s)
      = l.filter (fun x => x.score = s) := by
  induction l with
  | nil => rfl
  | cons b l ih =>
    by_cases h : b.score = s
    · rw [List.insertionSort, filter_orderedInsert_score_eq s b h, ih]
      simp [h]
    · rw [List.insertionSort, filter_orderedInsert_score_ne s b h, ih]
      simp [h]

/-- On a duplicate-free list the first-occurrence de-duplication is the
identity, whatever has been seen before, as long as none of it occurs. -/
theorem uniqueFirstAux_eq_self (l : List String) : ∀ (seen : List String),
    l.Nodup → (∀ x ∈ l, x ∉ seen) → uniqueFirstAux seen l = l := by
  induction l with
  | nil => intro seen _ _; rfl
  | cons a l ih =>
    intro seen hn hs
    rcases List.nodup_cons.mp hn with ⟨ha, hl⟩
    rw [uniqueFirstAux, if_neg (hs a (by simp))]
    congr 1
    refine ih (a :: seen) hl ?_
    intro x hx
    simp only [List.mem_cons]
    rintro (rfl | hxs)
    · exact ha hx
    · exact hs x (by simp [hx]) hxs

/-- On a duplicate-free list uniqueFirst is the identity. -/
theorem uniqueFirst_eq_self (l : List String) (h : l.Nodup) : uniqueFirst l = l :=
  uniqueFirstAux_eq_self l [] h (by simp)

/-- The abort-on-failure send loop delivers exactly the longest prefix
the transport accepts. -/
theorem send_bulk_email_eq_takeWhile (transport : MailMsg → Bool)
    (msgs : List MailMsg) :
    send_bulk_email transport msgs = msgs.takeWhile transport := by
  induction msgs with
  | nil => rfl
  | cons m ms ih => simp [send_bulk_email, List.takeWhile_cons, ih]

/-- Zipping equal-length email, subject and body columns pairs each row
with its own fields. -/
theorem handedMessages_zip (gen : String → String) (subj : String) :
    ∀ (l : List ResultRow),
    ((l.map (fun r => r.email)).zip
        ((List.replicate (l.map (fun r => r.email)).length subj).zip
          ((l.map (fun r => r.name)).map gen))).map
        (fun t => (⟨t.1, t.2.1, t.2.2⟩ : MailMsg))
      = l.map (fun r => ⟨r.email, subj, gen r.name⟩) := by
  intro l
  induction l with
  | nil => rfl
  | cons r l ih =>
    simp only [List.map_cons, List.length_cons, List.replicate_succ,
      List.zip_cons_cons]
    rw [ih]

/-! ### Claim C1 -/

/-- Claim C1, amended: the collection loop of main keeps exactly the
successful worker results — its length equals the number of files whose
processing succeeded, and is at most (not always equal to) the number
of input files; a failed extraction or scoring call contributes a
warning, not a collected record. -/
theorem c1_collected_equals_successes (scorer : String → ScoreOutcome)
    (files : List (String × ParseOutcome)) :
    (collectResults scorer files).length
      = (files.filter
          (fun fp => isSuccess (process_single_cv fp.2 scorer fp.1))).length
    ∧ (collectResults scorer files).length ≤ files.length := by
  constructor
  · induction files with
    | nil => rfl
    | cons fp files ih =>
      by_cases h : isSuccess (process_single_cv fp.2 scorer fp.1)
      · rcases hs : process_single_cv fp.2 scorer fp.1 with _ | _ | ⟨i, f⟩ <;>
          rw [hs] at h <;> simp [isSuccess] at h
        simp [collectResults, List.filterMap_cons, hs, rowOfResult,
          List.filter_cons, isSuccess] at *
        omega
      · rcases hs : process_single_cv fp.2 scorer fp.1 with _ | _ | ⟨i, f⟩ <;>
          rw [hs] at h <;> simp [isSuccess] at h <;>
          simp [collectResults, List.filterMap_cons, hs, rowOfResult,
            List.filter_cons, isSuccess] at * <;> omega
  · simpa [collectResults] using List.length_filterMap_le _ files

/-- Claim C1 counterexample: a batch of one file whose extraction fails
collects zero results, not one result per input file. -/
theorem c1_failed_file_missing :
    (collectResults errScorer badFiles).length = 0 ∧ badFiles.length = 1 := by
  decide

/-! ### Claim C2 -/

/-- Claim C2, amended: an INTERVIEW cycle moves the session to REPORT
exactly when the cycle is not a Start Over reset and either more than
480 seconds have elapsed since session start, or the operator pressed
End Interview on a cycle that reaches that button (no assistant turn
yet, or no utterance recognized). The content of the assistant turns
does not occur in this condition: no closing phrase ever triggers the
transition. -/
theorem c2_report_transition_iff (ai : List Turn → String) (s : Session)
    (inp : CycleInput) (h : s.page_state = PageState.INTERVIEW) :
    (interviewCycle ai s inp).1.page_state = PageState.REPORT
      ↔ (inp.startOver = false
          ∧ (480 < inp.now - s.interview_start_time
             ∨ (inp.endButton = true
                ∧ (latestAssistant s.messages = none ∨ inp.recognized = none)))) := by
  rcases hla : latestAssistant s.messages with _ | c
  · rcases hro : inp.recognized with _ | t <;>
      by_cases hso : inp.startOver <;>
      by_cases htime : 480 < inp.now - s.interview_start_time <;>
      by_cases hend : inp.endButton <;>
      simp [interviewCycle, hla, hro, hso, htime, hend, freshSetup, h]
  · rcases hro : inp.recognized with _ | t <;>
      by_cases hso : inp.startOver <;>
      by_cases htime : 480 < inp.now - s.interview_start_time <;>
      by_cases hend : inp.endButton <;>
      by_cases hls : s.last_spoken = some c <;>
      simp [interviewCycle, hla, hro, hso, htime, hend, hls, freshSetup, h]

/-- Claim C2 witness: the transition condition instantiated at a session
past the time ceiling. -/
theorem c2_report_transition_witness :
    (interviewCycle constAI closingSession inpReport).1.page_state
        = PageState.REPORT
      ↔ (inpReport.startOver = false
          ∧ (480 < inpReport.now - closingSession.interview_start_time
             ∨ (inpReport.endButton = true
                ∧ (latestAssistant closingSession.messages = none
                   ∨ inpReport.recognized = none)))) :=
  c2_report_transition_iff constAI closingSession inpReport rfl

/-- Claim C2 counterexample: the latest assistant turn carries a closing
phrase, yet the cycle leaves the session in INTERVIEW — the code never
inspects assistant content for closing phrases. -/
theorem c2_closing_phrase_no_transition :
    ("Goodbye".toList
        <:+: "Thank you for your time. This concludes our interview. Goodbye.".toList)
    ∧ latestAssistant closingSession.messages
        = some "Thank you for your time. This concludes our interview. Goodbye."
    ∧ (interviewCycle constAI closingSession inpQuiet).1.page_state
        = PageState.INTERVIEW := by
  decide

/-! ### Claim C3 -/

/-- Claim C3, amended: the shortlist is sorted by score descending and
is a permutation of the filtered results, but the sort is not stable:
pandas argsorts the score column ascending and reverses the indexer, so
every tie class appears in reversed filter-stage order. -/
theorem c3_shortlist_sorted_ties_reversed (results : List ResultRow) :
    List.Pairwise (fun a b => b.score ≤ a.score) (shortlistOf results)
    ∧ (shortlistOf results).Perm (results.filter (fun r => 60 ≤ r.score))
    ∧ ∀ s : Int, (shortlistOf results).filter (fun x => x.score = s)
        = ((results.filter (fun r => 60 ≤ r.score)).filter
            (fun x => x.score = s)).reverse := by
  refine ⟨?_, ?_, ?_⟩
  · have h := List.sorted_insertionSort scoreLe
      (results.filter (fun r => 60 ≤ r.score))
    rw [shortlistOf, pandasSortValuesDesc]
    rw [List.pairwise_reverse]
    exact h
  · exact ((List.insertionSort scoreLe _).reverse_perm).trans
      (List.perm_insertionSort scoreLe _)
  · intro s
    rw [shortlistOf, pandasSortValuesDesc, List.filter_reverse,
      filter_insertionSort_score]

/-- Claim C3 counterexample: two distinct records with equal score 60 do
not keep their filter-stage order — the shortlist reverses them. -/
theorem c3_equal_scores_reversed :
    shortlistOf [rowTieA, rowTieB] = [rowTieB, rowTieA] ∧ rowTieA ≠ rowTieB := by
  decide

/-! ### Claim C4 -/

/-- Claim C4: every record of the shortlist built from a batch of files
has score at least 60 and originates in a successful worker result
(hence carries no failure); no failed record and no record below the
threshold appears. -/
theorem c4_shortlist_successful_and_above_threshold
    (scorer : String → ScoreOutcome) (files : List (String × ParseOutcome))
    (r : ResultRow) (hr : r ∈ shortlistOfFiles scorer files) :
    60 ≤ r.score ∧ ∃ fp ∈ files,
      process_single_cv fp.2 scorer fp.1
        = CVResult.success r.id ⟨r.name, r.email, r.score, r.domain, r.comment⟩ := by
  have h1 : r ∈ (collectResults scorer files).filter (fun x => 60 ≤ x.score) := by
    rw [shortlistOfFiles, shortlistOf, pandasSortValuesDesc, List.mem_reverse] at hr
    exact (List.perm_insertionSort scoreLe _).mem_iff.mp hr
  rcases List.mem_filter.mp h1 with ⟨h2, h3⟩
  refine ⟨by simpa using h3, ?_⟩
  rcases List.mem_filterMap.mp h2 with ⟨fp, hfp, heq⟩
  refine ⟨fp, hfp, ?_⟩
  rcases hs : process_single_cv fp.2 scorer fp.1 with _ | _ | ⟨i, f⟩ <;>
    rw [hs] at heq <;> simp [rowOfResult] at heq
  cases f
  simp only [← heq]

/-- Claim C4 witness: the sample shortlist member meets the threshold. -/
theorem c4_shortlist_member_witness : 60 ≤ sampleRow.score :=
  (c4_shortlist_successful_and_above_threshold okScorer sampleFiles sampleRow
    (by decide)).1

/-! ### Claim C5 -/

/-- Claim C5, amended: provided every shortlisted candidate has a
distinct (non-missing) email address, the mail section generates one
personalized body per candidate and hands one batch of messages to the
transport, each body paired with the email of the candidate it was
generated for; a transport failure aborts the remaining sends, the
delivered messages being the longest transport-accepted prefix. When
emails repeat, the de-duplicated email column misaligns with the full
name column and later candidates lose their message. -/
theorem c5_batch_pairing_distinct_emails (gen : String → String) (jt : String)
    (shortlisted : List ResultRow)
    (h : (shortlisted.map (fun r => r.email)).Nodup) :
    handedMessages gen jt shortlisted
      = shortlisted.map (fun r => ⟨r.email, bulkSubject jt, gen r.name⟩)
    ∧ ∀ (transport : MailMsg → Bool) (msgs : List MailMsg),
        send_bulk_email transport msgs = msgs.takeWhile transport := by
  constructor
  · rw [handedMessages]
    rw [uniqueFirst_eq_self _ h]
    exact handedMessages_zip gen (bulkSubject jt) shortlisted
  · exact send_bulk_email_eq_takeWhile

/-- Claim C5 witness: with two distinct emails the handed batch pairs
each candidate with the body generated from their own name. -/
theorem c5_pairing_witness :
    handedMessages bodyGen "Engineer" [mailRowA, mailRowB]
      = [⟨"alice@example.com", bulkSubject "Engineer", bodyGen "Alice"⟩,
         ⟨"bob@example.com", bulkSubject "Engineer", bodyGen "Bob"⟩] := by
  have h := (c5_batch_pairing_distinct_emails bodyGen "Engineer"
    [mailRowA, mailRowB] (by decide)).1
  simpa [mailRowA, mailRowB] using h

/-- Claim C5 counterexample: two candidates sharing one email address
produce a single handed message, so the second candidate never receives
the body generated for them. -/
theorem c5_duplicate_email_misaligned :
    handedMessages bodyGen "Engineer" [dupRowA, dupRowB]
      = [⟨"hr@example.com", bulkSubject "Engineer", bodyGen "Alice"⟩]
    ∧ handedMessages bodyGen "Engineer" [dupRowA, dupRowB]
      ≠ [⟨dupRowA.email, bulkSubject "Engineer", bodyGen dupRowA.name⟩,
         ⟨dupRowB.email, bulkSubject "Engineer", bodyGen dupRowB.name⟩] := by
  decide

/-! ### Claim C6 -/

/-- Claim C6: the first REPORT view on a session without a cached report
makes exactly one client call and caches the produced value; a second
view returns the same session and the identical cached value with zero
further client calls. -/
theorem c6_report_generated_once (rr : String → String)
    (jp : String → Option FinalReportJson) (s : Session)
    (h : s.final_report = none) :
    (reportView rr jp s).2.2 = 1
    ∧ (reportView rr jp s).1.final_report = some (reportView rr jp s).2.1
    ∧ reportView rr jp (reportView rr jp s).1
        = ((reportView rr jp s).1, (reportView rr jp s).2.1, 0) := by
  rcases hp : jp (rr (reportPrompt s.candidate_name (transcriptString s.messages)))
      with _ | j <;>
    simp [reportView, h, hp]

/-- Claim C6 witness: the caching property instantiated on a concrete
concluded session. -/
theorem c6_report_cached_witness :
    (reportView constRaw noParse reportSession).2.2 = 1
    ∧ (reportView constRaw noParse reportSession).1.final_report
        = some (reportView constRaw noParse reportSession).2.1
    ∧ reportView constRaw noParse (reportView constRaw noParse reportSession).1
        = ((reportView constRaw noParse reportSession).1,
           (reportView constRaw noParse reportSession).2.1, 0) :=
  c6_report_generated_once constRaw noParse reportSession rfl

/-! ### Claim C7 -/

/-- Claim C7: a worker whose extraction raises returns the
extraction-error record carrying the failure detail and never consults
the scoring client (its result is the same under any client); a worker
whose extraction and scoring both succeed returns a success record whose
id is the filename with its extension stripped. -/
theorem c7_worker_failure_and_id (e fn t : String)
    (scorer s2 : String → ScoreOutcome) (fields : ScoreFields) :
    (process_single_cv (ParseOutcome.exn e) scorer fn
       = CVResult.extractionError ("Error parsing PDF: " ++ e) fn
     ∧ process_single_cv (ParseOutcome.exn e) scorer fn
       = process_single_cv (ParseOutcome.exn e) s2 fn)
    ∧ (containsErr t = false → scorer t = ScoreOutcome.ok fields →
       process_single_cv (ParseOutcome.ok t) scorer fn
         = CVResult.success (splitextRoot fn) fields) := by
  refine ⟨⟨?_, ?_⟩, ?_⟩
  · simp [process_single_cv, parse_pdf, containsErr_parse_exn e]
  · simp [process_single_cv, parse_pdf, containsErr_parse_exn e]
  · intro h hsc
    simp [process_single_cv, parse_pdf, h, hsc]

/-- Claim C7 witness: the success path instantiated — the id is the
filename without its extension. -/
theorem c7_worker_witness :
    process_single_cv (ParseOutcome.ok "nine years of platform engineering")
        okScorer "cv.pdf"
      = CVResult.success (splitextRoot "cv.pdf") okFields :=
  (c7_worker_failure_and_id "boom" "cv.pdf"
    "nine years of platform engineering" okScorer errScorer okFields).2
    (by decide) rfl

/-! ### Claim C8 -/

/-- Claim C8: when the structured report response fails to parse as
JSON, the REPORT view stores the raw response text as the explicit error
value on the session and displays exactly that raw text; no exception
escapes (the embedded view is a total function). -/
theorem c8_raw_report_preserved (rr : String → String)
    (jp : String → Option FinalReportJson) (s : Session)
    (h : s.final_report = none)
    (hp : jp (rr (reportPrompt s.candidate_name (transcriptString s.messages)))
            = none) :
    (reportView rr jp s).2.1
        = ReportValue.error
            (rr (reportPrompt s.candidate_name (transcriptString s.messages)))
    ∧ (reportView rr jp s).1.final_report
        = some (ReportValue.error
            (rr (reportPrompt s.candidate_name (transcriptString s.messages))))
    ∧ displayedText (reportView rr jp s).2.1
        = rr (reportPrompt s.candidate_name (transcriptString s.messages)) := by
  simp [reportView, h, hp, displayedText]

/-- Claim C8 witness: the raw-text preservation instantiated on a
concrete non-JSON response. -/
theorem c8_raw_report_witness :
    (reportView constRaw noParse reportSession).2.1
        = ReportValue.error
            (constRaw (reportPrompt reportSession.candidate_name
              (transcriptString reportSession.messages)))
    ∧ (reportView constRaw noParse reportSession).1.final_report
        = some (ReportValue.error
            (constRaw (reportPrompt reportSession.candidate_name
              (transcriptString reportSession.messages))))
    ∧ displayedText (reportView constRaw noParse reportSession).2.1
        = constRaw (reportPrompt reportSession.candidate_name
            (transcriptString reportSession.messages)) :=
  c8_raw_report_preserved constRaw noParse reportSession rfl rfl

/-! ### Claim C9 -/

/-- Claim C9: an INTERVIEW cycle that reaches the recognizer (not a
reset, within the time ceiling, an assistant turn exists) and hears no
utterance appends no turn of any role and makes no chat-completion call:
the transcript after the cycle equals the transcript before it. -/
theorem c9_no_utterance_frame (ai : List Turn → String) (s : Session)
    (inp : CycleInput) (c : String)
    (hso : inp.startOver = false)
    (ht : ¬ 480 < inp.now - s.interview_start_time)
    (hla : latestAssistant s.messages = some c)
    (hr : inp.recognized = none) :
    (interviewCycle ai s inp).1.messages = s.messages
    ∧ (interviewCycle ai s inp).2 = 0 := by
  by_cases hend : inp.endButton <;>
    by_cases hls : s.last_spoken = some c <;>
    simp [interviewCycle, hso, ht, hla, hr, hend, hls]

/-- Claim C9 witness: the frame property instantiated on a session whose
recognizer returns no utterance. -/
theorem c9_no_utterance_witness :
    (interviewCycle constAI closingSession inpQuiet).1.messages
        = closingSession.messages
    ∧ (interviewCycle constAI closingSession inpQuiet).2 = 0 :=
  c9_no_utterance_frame constAI closingSession inpQuiet
    "Thank you for your time. This concludes our interview. Goodbye."
    rfl (by decide) (by decide) rfl

/-! ### Claim C10 -/

/-- Claim C10: the worker classifies extraction as failed exactly when
the parsed text contains the substring Error, and in that case the
scoring client is never consulted — so a cleanly parsed resume whose
body mentions Error is reported as a failed extraction. -/
theorem c10_error_substring_classification (p : ParseOutcome)
    (scorer : String → ScoreOutcome) (fn : String) :
    isExtractionError (process_single_cv p scorer fn) = containsErr (parse_pdf p)
    ∧ (containsErr (parse_pdf p) = true →
       ∀ s2 : String → ScoreOutcome,
         process_single_cv p scorer fn = process_single_cv p s2 fn) := by
  constructor
  · cases h : containsErr (parse_pdf p)
    · rcases hs : scorer (parse_pdf p) with f | e <;>
        simp [process_single_cv, h, hs, isExtractionError]
    · simp [process_single_cv, h, isExtractionError]
  · intro h s2
    simp [process_single_cv, h]

/-- Claim C10 witness: a cleanly parsed resume mentioning Error is
classified as a failed extraction, independently of the scoring client. -/
theorem c10_error_substring_witness :
    isExtractionError
        (process_single_cv (ParseOutcome.ok resumeWithError) errScorer "cv.pdf")
      = containsErr (parse_pdf (ParseOutcome.ok resumeWithError))
    ∧ process_single_cv (ParseOutcome.ok resumeWithError) errScorer "cv.pdf"
      = process_single_cv (ParseOutcome.ok resumeWithError) okScorer "cv.pdf" :=
  ⟨(c10_error_substring_classification (ParseOutcome.ok resumeWithError)
      errScorer "cv.pdf").1,
   (c10_error_substring_classification (ParseOutcome.ok resumeWithError)
      errScorer "cv.pdf").2 (by decide) okScorer⟩

end ATS
